import Mathlib

/-!
Verification of the event-router / Munshi telemetry subsystem
(`src/event_driven_services/event_router.service.js`,
`src/event_driven_services/munshi.service.js`).

The JavaScript services are shallowly embedded: the mutable singleton
router becomes an explicit `RouterState` threaded through operations,
`async` sequencing becomes ordinary sequential evaluation, callbacks are
identified by numeric ids whose behaviour is drawn from a small action
language (succeed / throw / run slowly / register another handler), and
the two transports are driven by boolean outcome oracles.
-/

namespace EventRouter

/-- One entry of `this.handlers[event_id]`: the pushed object
`{fn, priority, timeout, name}` (event_router.service.js lines 238-243).
The callback is identified by a numeric id (JS function reference). -/
structure HandlerEntry where
  fnId : Nat
  priority : Int
  timeout : Option Nat
  name : String
deriving DecidableEq, Repr

/-- The optional `options` argument of `register_handler`. -/
structure HandlerOptions where
  priority : Option Int := none
  timeout : Option Nat := none
  name : Option String := none
deriving DecidableEq, Repr

/-- An entry of `this.rabbitmq_publishers[event_id]`: `{queue_name, options}`. -/
structure PublisherEntry where
  queue_name : String
  options : List (String × String) := []
deriving DecidableEq, Repr

/-- JS `v || d` on a number-or-absent value: `0`, `null` and `undefined`
are falsy, so they yield the default. -/
def js_or_int (v : Option Int) (d : Int) : Int :=
  match v with
  | some x => if x = 0 then d else x
  | none => d

/-- JS `options.timeout || null`: a `0` timeout is falsy and stored as `null`. -/
def js_or_timeout (v : Option Nat) : Option Nat :=
  match v with
  | some 0 => none
  | some t => some t
  | none => none

/-- JS `options.name || default`: the empty string is falsy. -/
def js_or_name (v : Option String) (d : String) : String :=
  match v with
  | some n => if n = "" then d else n
  | none => d

/-- The router's mutable singleton state: `this.handlers` (a JS object, so a
key can be absent — distinct from holding an empty array), `this.rabbitmq_publishers`
and `this.middlewares`.  Middleware behaviour is the deep action type `MBehavior`
defined below; we keep the state parametric in it to break the recursion. -/
structure RouterStateG (M : Type) where
  handlers : String → Option (List HandlerEntry)
  rabbitmq_publishers : String → Option PublisherEntry
  middlewares : List M

/-- `register_handler(event_id, handler_fn, options)`
(event_router.service.js lines 220-255): validates `event_id`, initialises the
array when the key is absent, and pushes
`{fn, priority: options.priority || 10, timeout: options.timeout || null,
name: options.name || `${event_id}_handler_${len+1}`}`.
Throwing is modelled by `Except.error`. -/
def register_handler {M : Type} (st : RouterStateG M) (event_id : String)
    (fnId : Nat) (opts : HandlerOptions) : Except String (RouterStateG M) :=
  if event_id = "" then
    .error "Event ID must be a non-empty string"
  else
    let cur := (st.handlers event_id).getD []
    let entry : HandlerEntry :=
      { fnId := fnId
        priority := js_or_int opts.priority 10
        timeout := js_or_timeout opts.timeout
        name := js_or_name opts.name
          (event_id ++ "_handler_" ++ toString (cur.length + 1)) }
    .ok { st with handlers := fun e =>
            if e = event_id then some (cur ++ [entry]) else st.handlers e }

/-- `unregister_handler(event_id, handler_fn?)`
(event_router.service.js lines 263-286): returns unchanged when the key is
absent; with a handler argument it keeps `filter(handler => handler.fn !== handler_fn)`;
without one it does `delete this.handlers[event_id]`. -/
def unregister_handler {M : Type} (st : RouterStateG M) (event_id : String)
    (fnId : Option Nat) : RouterStateG M :=
  match st.handlers event_id with
  | none => st
  | some hs =>
    match fnId with
    | some f =>
        { st with handlers := fun e =>
            if e = event_id then some (hs.filter (fun h => h.fnId ≠ f))
            else st.handlers e }
    | none =>
        { st with handlers := fun e =>
            if e = event_id then none else st.handlers e }

/-- `register_rabbitmq_publisher(event_id, queue_name, options)`
(event_router.service.js lines 295-315): validates both strings and
overwrites `this.rabbitmq_publishers[event_id]`. -/
def register_rabbitmq_publisher {M : Type} (st : RouterStateG M) (event_id : String)
    (queue_name : String) (options : List (String × String)) :
    Except String (RouterStateG M) :=
  if event_id = "" then .error "Event ID must be a non-empty string"
  else if queue_name = "" then .error "Queue name must be a non-empty string"
  else
    .ok { st with rabbitmq_publishers := fun e =>
            if e = event_id then some { queue_name := queue_name, options := options }
            else st.rabbitmq_publishers e }

/-- Action language for a registered handler callback.  A callback either
resolves, rejects, runs for an abstract duration `d` (relevant when the entry
has a timeout: the dispatch races it against a timer), or calls
`register_handler` on the router and then resolves. -/
inductive HBehavior where
  | succeed
  | throwErr
  | slow (d : Nat)
  | registerH (event_id : String) (fnId : Nat) (opts : HandlerOptions)

/-- Action language for a middleware: a pure payload transform, a throw, or a
`register_handler` call on the router (returning the payload unchanged). -/
inductive MBehavior where
  | transform (f : Nat → Nat)
  | throwErr
  | registerH (event_id : String) (fnId : Nat) (opts : HandlerOptions)

/-- The router state with middlewares drawn from the action language. -/
abbrev RouterState := RouterStateG MBehavior

/-- Record of one handler execution inside a dispatch: the snapshot entry that
ran and whether it settled successfully (`false` = its exception or timeout
was caught by the per-handler `try`/`catch`, lines 108-122). -/
structure ExecRecord where
  entry : HandlerEntry
  ok : Bool
deriving DecidableEq, Repr

/-- Execute one handler from the sorted snapshot (the body of the
`for (const handler of sorted_handlers)` loop, lines 107-123): run it —
raced against a timer of `handler.timeout` when one is set
(`_execute_with_timeout`, lines 162-178) — catching any failure. -/
def exec_handler (env : Nat → HBehavior) (st : RouterState) (h : HandlerEntry) :
    RouterState × ExecRecord :=
  match env h.fnId with
  | .succeed => (st, ⟨h, true⟩)
  | .throwErr => (st, ⟨h, false⟩)
  | .slow d =>
      match h.timeout with
      | some t => if t ≤ d then (st, ⟨h, false⟩) else (st, ⟨h, true⟩)
      | none => (st, ⟨h, true⟩)
  | .registerH eid f o =>
      match register_handler st eid f o with
      | .ok st2 => (st2, ⟨h, true⟩)
      | .error _ => (st, ⟨h, false⟩)

/-- Execute one middleware (`processed = await middleware(event_id, processed)`,
line 98). `none` in the second component means the middleware threw. -/
def exec_middleware (st : RouterState) (m : MBehavior) (p : Nat) :
    RouterState × Option Nat :=
  match m with
  | .transform f => (st, some (f p))
  | .throwErr => (st, none)
  | .registerH eid f o =>
      match register_handler st eid f o with
      | .ok st2 => (st2, some p)
      | .error _ => (st, none)

/-- The `for (const middleware of this.middlewares)` loop (lines 97-99):
sequential, stopping at the first throw; state mutations made by earlier
middlewares persist. -/
def run_middlewares (ms : List MBehavior) (st : RouterState) (p : Nat) :
    RouterState × Option Nat :=
  match ms with
  | [] => (st, some p)
  | m :: rest =>
    match exec_middleware st m p with
    | (st2, some p2) => run_middlewares rest st2 p2
    | (st2, none) => (st2, none)

/-- The sequential handler loop over the fixed sorted snapshot
(lines 107-123); each failure is caught and the loop continues. -/
def run_handlers (env : Nat → HBehavior) (hs : List HandlerEntry)
    (st : RouterState) : RouterState × List ExecRecord :=
  match hs with
  | [] => (st, [])
  | h :: rest =>
    let s1 := exec_handler env st h
    let s2 := run_handlers env rest s1.1
    (s2.1, s1.2 :: s2.2)

/-- Ordering used by `sort((a, b) => a.priority - b.priority)` (line 105). -/
def priorityLE (a b : HandlerEntry) : Prop := a.priority ≤ b.priority

instance : DecidableRel priorityLE := fun a b => by
  unfold priorityLE; infer_instance

instance : IsTotal HandlerEntry priorityLE :=
  ⟨fun a b => Int.le_total a.priority b.priority⟩

instance : IsTrans HandlerEntry priorityLE :=
  ⟨fun _ _ _ hab hbc => le_trans hab hbc⟩

/-- `[...handlers].sort((a, b) => a.priority - b.priority)` — JS `Array.sort`
is a stable sort (ES2019), modelled by the stable `List.insertionSort`. -/
def sortByPriority (l : List HandlerEntry) : List HandlerEntry :=
  l.insertionSort priorityLE

/-- The observable outcome of one dispatch of the `'event_router'` listener
(`_initialize_router`, lines 77-148). -/
structure DispatchResult where
  state : RouterState
  ran : List ExecRecord
  forwarded : Option (String × Nat)
  middleware_failed : Bool
  skipped : Bool

/-- One dispatch (the listener body, lines 78-148):
1. return early when `event_id` has neither a handlers key nor a publisher
   (line 90; an empty handlers array is truthy and does not skip);
2. run the middleware chain; a throw is caught by the top-level
   `try`/`catch` — no handlers run and no forward happens (lines 96-99, 140-147);
3. read `this.handlers[event_id]` (line 102 — after the middlewares),
   copy and priority-sort it, and run the handlers sequentially with
   per-handler fault isolation;
4. finally forward the middleware-transformed payload to the
   RabbitMQ publisher bound to `event_id`, if any (lines 127-131). -/
def dispatch (env : Nat → HBehavior) (st : RouterState) (event_id : String)
    (payload : Nat) : DispatchResult :=
  if (st.handlers event_id).isNone && (st.rabbitmq_publishers event_id).isNone then
    { state := st, ran := [], forwarded := none,
      middleware_failed := false, skipped := true }
  else
    let rm := run_middlewares st.middlewares st payload
    match rm.2 with
    | none =>
        { state := rm.1, ran := [], forwarded := none,
          middleware_failed := true, skipped := false }
    | some p2 =>
        let sorted := sortByPriority ((rm.1.handlers event_id).getD [])
        let pr := run_handlers env sorted rm.1
        { state := pr.1
          ran := pr.2
          forwarded :=
            match pr.1.rabbitmq_publishers event_id with
            | some pub => some (pub.queue_name, p2)
            | none => none
          middleware_failed := false
          skipped := false }

end EventRouter

namespace Munshi

open EventRouter

/-- Munshi service configuration (munshi.service.js lines 61-65). -/
def munshi_app_id : Nat := 1020

/-- Default TTL, 30 days in seconds (line 62). -/
def munshi_ttl : Int := 2592000

/-- Queue name for log processing (line 63). -/
def munshi_queue_name : String := "VT_MUNSHI_SERVICE_MAIN"

/-- The structured origin trace returned by `extract_stack_trace`. -/
structure TraceInfo where
  file_path : String
  file_name : String
  function_name : String
  line_no : Nat
  column_no : Nat
deriving DecidableEq, Repr

/-- The fallback trace returned when parsing fails (lines 421-427, 446-452). -/
def placeholder_trace : TraceInfo :=
  { file_path := "unknown", file_name := "unknown.js",
    function_name := "anonymous", line_no := 0, column_no := 0 }

/-- JS `\s` on the characters that can occur in a stack line. -/
def isWS (c : Char) : Bool :=
  c = ' ' || c = '\t' || c = '\n' || c = '\r' || c = '\x0b' || c = '\x0c'

/-- A character matchable by `.` (JS dot excludes line terminators). -/
def isDotChar (c : Char) : Bool := c ≠ '\n' && c ≠ '\r'

/-- Numeric value of a nonempty run of decimal digits (JS `parseInt(_, 10)`
applied to a `\d+` capture). -/
def digitsToNat (l : List Char) : Nat :=
  l.foldl (fun acc c => acc * 10 + (c.toNat - 48)) 0

/-- Maximal leading digit run and the rest: greedy `(\d+)`. -/
def takeDigits (l : List Char) : List Char × List Char :=
  (l.takeWhile Char.isDigit, l.dropWhile Char.isDigit)

/-- Match `:(\d+):(\d+)\)` at the head of `l` (trailing characters allowed:
the regex is unanchored at the right).  The greedy `\d+` runs are deterministic
because a shorter run would leave a digit where `:` or `)` is required. -/
def parseLoc1 (l : List Char) : Option (Nat × Nat) :=
  match l with
  | ':' :: r =>
    let d1 := takeDigits r
    if d1.1 = [] then none
    else
      match d1.2 with
      | ':' :: r2 =>
        let d2 := takeDigits r2
        if d2.1 = [] then none
        else
          match d2.2 with
          | ')' :: _ => some (digitsToNat d1.1, digitsToNat d2.1)
          | _ => none
      | _ => none
  | _ => none

/-- Match `:(\d+):(\d+)` at the head of `l` (no closing paren, anonymous
frame pattern), trailing characters allowed. -/
def parseLoc2 (l : List Char) : Option (Nat × Nat) :=
  match l with
  | ':' :: r =>
    let d1 := takeDigits r
    if d1.1 = [] then none
    else
      match d1.2 with
      | ':' :: r2 =>
        let d2 := takeDigits r2
        if d2.1 = [] then none else some (digitsToNat d1.1, digitsToNat d2.1)
      | _ => none
  | _ => none

/-- Match `\s+\(` at the head of `l`, returning the rest after `(`.  The
greedy whitespace run is deterministic: giving characters back would leave a
whitespace character where `(` is required. -/
def wsThenParen (l : List Char) : Option (List Char) :=
  let ws := l.takeWhile isWS
  if ws = [] then none
  else
    match l.dropWhile isWS with
    | '(' :: rest => some rest
    | _ => none

/-- Greedy `(.*)` followed by a tail matcher: try the split points longest
first (backtracking order of a greedy quantifier) and keep the first whose
remainder the tail matcher accepts. -/
def greedyDotStar {α : Type} (l : List Char) (tail : List Char → Option α) :
    Option (String × α) :=
  ((List.range (l.length + 1)).reverse).findSome? (fun k =>
    let g := l.take k
    if g.all isDotChar then
      (tail (l.drop k)).map (fun a => (String.mk g, a))
    else none)

/-- Attempt the named-frame pattern `at\s+(.*)\s+\((.*):(\d+):(\d+)\)`
(munshi.service.js line 416) at one start position.  Returns
(function name, file path, line, column). -/
def match1At (l : List Char) : Option (String × String × Nat × Nat) :=
  match l with
  | 'a' :: 't' :: rest =>
    let ws := rest.takeWhile isWS
    if ws = [] then none
    else
      greedyDotStar (rest.dropWhile isWS) (fun r1 =>
        match wsThenParen r1 with
        | none => none
        | some r2 => greedyDotStar r2 parseLoc1)
      |>.map (fun (g1, g2, ln, col) => (g1, g2, ln, col))
  | _ => none

/-- Attempt the anonymous-frame pattern `at\s+()(.*):(\d+):(\d+)`
(munshi.service.js line 417) at one start position.  The empty first capture
means the function name is empty. -/
def match2At (l : List Char) : Option (String × String × Nat × Nat) :=
  match l with
  | 'a' :: 't' :: rest =>
    let ws := rest.takeWhile isWS
    if ws = [] then none
    else
      (greedyDotStar (rest.dropWhile isWS) parseLoc2).map
        (fun (g2, ln, col) => ("", g2, ln, col))
  | _ => none

/-- Unanchored search: JS `String.match` tries start positions left to
right and keeps the leftmost successful match. -/
def searchPat {α : Type} (pat : List Char → Option α) : List Char → Option α
  | [] => pat []
  | c :: rest =>
    match pat (c :: rest) with
    | some a => some a
    | none => searchPat pat rest

/-- JS `String.split(sep)` for a single-character separator, over the
character list (splitting the empty string yields one empty field). -/
def splitOnChar (sep : Char) : List Char → List (List Char)
  | [] => [[]]
  | c :: rest =>
    let r := splitOnChar sep rest
    if c = sep then [] :: r
    else
      match r with
      | [] => [[c]]
      | h :: t => (c :: h) :: t

/-- Node `path.basename` on the slash-separated paths produced by stack
frames: the last `/`-separated component. -/
def basename (p : String) : String :=
  String.mk (((splitOnChar '/' p.toList).getLast?).getD p.toList)

/-- `extract_stack_trace(error)` (munshi.service.js lines 406-454): split the
trace text on newlines, take line index 1 (defaulting to the empty string),
try the named-frame regex then the anonymous-frame regex, and on success build
the trace record (`function_name` falls back to `"anonymous"` when the capture
is empty, the file name is `path.basename` of the captured path).  A missing
trace (`error.stack` undefined, so `.split` throws) or a double pattern
failure yields the placeholder via the surrounding `try`/`catch`. -/
def extract_stack_trace (stack : Option String) : TraceInfo :=
  match stack with
  | none => placeholder_trace
  | some s =>
    let stack_lines := splitOnChar '\n' s.toList
    let cl := (stack_lines.get? 1).getD []
    match searchPat match1At cl with
    | some (fname, fpath, ln, col) =>
        { file_path := fpath, file_name := basename fpath,
          function_name := if fname = "" then "anonymous" else fname,
          line_no := ln, column_no := col }
    | none =>
      match searchPat match2At cl with
      | some (fname, fpath, ln, col) =>
          { file_path := fpath, file_name := basename fpath,
            function_name := if fname = "" then "anonymous" else fname,
            line_no := ln, column_no := col }
      | none => placeholder_trace

/-- A JS `Error` object as used by the pipeline: its message and its
(optionally absent) formatted stack-trace text. -/
structure ErrorObj where
  message : String
  stack : Option String
deriving DecidableEq, Repr

/-- The `event_data` accepted by `report_to_munshi` (lines 205-213). -/
structure EventData where
  error : ErrorObj
  error_code : Option String := none
  error_title : String := ""
  error_type : String := ""
  metadata : List (String × String) := []
  other_data : List (String × String) := []
  nonblocking : Option Int := none
  ttl : Option Int := none
deriving DecidableEq, Repr

/-- The merged `metadata` of a system log (lines 224-229): the caller's
fields spread first, then the fixed bookkeeping fields. -/
structure SysMetadata where
  base : List (String × String)
  reported_via : String
  error_type : String
  nonblocking : Int
deriving DecidableEq, Repr

/-- The merged `other_data` of a system log (lines 230-235). -/
structure SysOtherData where
  base : List (String × String)
  error_message : String
  error_stack : Option String
  reported_at : Nat
deriving DecidableEq, Repr

/-- The `system_log_data` envelope (lines 238-247). -/
structure SystemLogData where
  app_id : Nat
  error_code : Option String
  error_title : String
  origin_trace : TraceInfo
  metadata : SysMetadata
  other_data : SysOtherData
  ttl : Int
  entry_time : Nat
deriving DecidableEq, Repr

/-- Outcomes of the three transport sends a single report can make:
the RabbitMQ send, the HTTP fallback, and the delayed queue retry. -/
structure Oracles where
  queueOk : Bool
  httpOk : Bool
  retryOk : Bool
deriving DecidableEq, Repr

/-- One transport attempt made by the decision tree, with its outcome.
`delayedQueue` is the one-shot `setTimeout` retry (fired 2 s later as a
detached task whose outcome is only logged). -/
inductive Attempt where
  | queue (ok : Bool)
  | http (category : String) (ok : Bool)
  | delayedQueue (ok : Bool)
deriving DecidableEq, Repr

/-- `sendToRabbitMQ` as seen by the pipeline: resolves or throws. -/
def rabbitmq_send (ok : Bool) : Except String Unit :=
  if ok then .ok () else .error "RabbitMQ send failed"

/-- `send_log_to_munshi_api` (lines 79-104): posts over HTTP and returns a
boolean; every HTTP failure is caught inside and becomes `false`, so it
never throws. -/
def send_log_to_munshi_api (httpOk : Bool) : Bool := httpOk

/-- Result of one `report_to_munshi` call: the envelope it built and the
transport attempts it made, in order. -/
structure ReportOutcome where
  envelope : SystemLogData
  attempts : List Attempt
deriving DecidableEq, Repr

/-- `is_rabbitmq_error` (line 250): JS
`event_data.error_code && event_data.error_code.startsWith('RABBITMQ-')`
(an absent or empty `error_code` is falsy). -/
def is_rabbitmq_error (d : EventData) : Bool :=
  match d.error_code with
  | none => false
  | some c => c ≠ "" && c.startsWith "RABBITMQ-"

/-- `is_mq_error` (line 251). -/
def is_mq_error (d : EventData) : Bool := d.error_type = "MQ_ERROR"

/-- The `system_log_data` construction (lines 220-247): extract the origin
trace, default the TTL with `event_data.ttl || munshi_ttl`, and merge the
bookkeeping fields into `metadata` / `other_data`. -/
def build_system_log_data (d : EventData) (now : Nat) : SystemLogData :=
  { app_id := munshi_app_id
    error_code := d.error_code
    error_title := d.error_title
    origin_trace := extract_stack_trace d.error.stack
    metadata :=
      { base := d.metadata, reported_via := "munshi_service",
        error_type := d.error_type, nonblocking := js_or_int d.nonblocking 0 }
    other_data :=
      { base := d.other_data, error_message := d.error.message,
        error_stack := d.error.stack, reported_at := now }
    ttl := js_or_int d.ttl munshi_ttl
    entry_time := now }

/-- The body of `report_to_munshi` inside its outer `try` (lines 216-304):
build the envelope; when the report is itself a RabbitMQ failure
(`is_rabbitmq_error || is_mq_error`) go straight to the HTTP API and stop
whatever its result; otherwise try the queue, on a throw fall back to the
HTTP API, and when that also fails schedule exactly one delayed queue
retry whose outcome is only logged.  Every throwing operation is wrapped
in a `catch`, so the body never propagates an error. -/
def report_to_munshi_body (d : EventData) (o : Oracles) (now : Nat) :
    Except String ReportOutcome :=
  let system_log_data := build_system_log_data d now
  if is_rabbitmq_error d || is_mq_error d then
    .ok { envelope := system_log_data
          attempts := [.http "system" (send_log_to_munshi_api o.httpOk)] }
  else
    match rabbitmq_send o.queueOk with
    | .ok _ => .ok { envelope := system_log_data, attempts := [.queue true] }
    | .error _ =>
      let api_success := send_log_to_munshi_api o.httpOk
      if api_success then
        .ok { envelope := system_log_data
              attempts := [.queue false, .http "system" true] }
      else
        .ok { envelope := system_log_data
              attempts := [.queue false, .http "system" false,
                           .delayedQueue (rabbitmq_send o.retryOk).toBool] }

/-- `report_to_munshi` (lines 215-308): the body under its outer
`try`/`catch`; a caught top-level error would produce an envelope-less
no-attempt outcome, so nothing ever escapes to the caller. -/
def report_to_munshi (d : EventData) (o : Oracles) (now : Nat) : ReportOutcome :=
  match report_to_munshi_body d o now with
  | .ok r => r
  | .error _ => { envelope := build_system_log_data d now, attempts := [] }

/-- The `event_data` accepted by `publish_general_log` (lines 314-325). -/
structure GeneralEventData where
  log_type : String
  plain_text : String
  oneid : Option Int := none
  org_id : Option String := none
  entity_id : Option String := none
  entity_type : Option String := none
  metadata : List (String × String) := []
  changes : List (String × String × String) := []
  other_data : List (String × String) := []
  ttl : Option Int := none
deriving DecidableEq, Repr

/-- The merged `metadata` of a general log (lines 343-346). -/
structure GenMetadata where
  base : List (String × String)
  reported_via : String
deriving DecidableEq, Repr

/-- The merged `other_data` of a general log (lines 348-351). -/
structure GenOtherData where
  base : List (String × String)
  reported_at : Nat
deriving DecidableEq, Repr

/-- The `general_log_data` envelope (lines 335-354). -/
structure GeneralLogData where
  app_id : Nat
  oneid : Option Int
  org_id : Option String
  entity_id : Option String
  entity_type : Option String
  log_type : String
  plain_text : String
  metadata : GenMetadata
  changes : List (String × String × String)
  other_data : GenOtherData
  ttl : Int
  entry_time : Nat
deriving DecidableEq, Repr

/-- Result of one `publish_general_log` call. -/
structure GeneralOutcome where
  envelope : GeneralLogData
  attempts : List Attempt
deriving DecidableEq, Repr

/-- The `general_log_data` construction (lines 331-354). -/
def build_general_log_data (d : GeneralEventData) (now : Nat) : GeneralLogData :=
  { app_id := munshi_app_id
    oneid := d.oneid
    org_id := d.org_id
    entity_id := d.entity_id
    entity_type := d.entity_type
    log_type := d.log_type
    plain_text := d.plain_text
    metadata := { base := d.metadata, reported_via := "munshi_service" }
    changes := d.changes
    other_data := { base := d.other_data, reported_at := now }
    ttl := js_or_int d.ttl munshi_ttl
    entry_time := now }

/-- `publish_general_log` (lines 327-398): build the envelope, try the queue,
fall back to the HTTP API (`general` category), then at worst schedule the
single delayed queue retry; every failure is caught. -/
def publish_general_log (d : GeneralEventData) (o : Oracles) (now : Nat) :
    GeneralOutcome :=
  let general_log_data := build_general_log_data d now
  match rabbitmq_send o.queueOk with
  | .ok _ => { envelope := general_log_data, attempts := [.queue true] }
  | .error _ =>
    let api_success := send_log_to_munshi_api o.httpOk
    if api_success then
      { envelope := general_log_data
        attempts := [.queue false, .http "general" true] }
    else
      { envelope := general_log_data
        attempts := [.queue false, .http "general" false,
                     .delayedQueue (rabbitmq_send o.retryOk).toBool] }

end Munshi

namespace EventRouter

lemma register_handler_publishers {M : Type} {st st' : RouterStateG M}
    {eid : String} {f : Nat} {o : HandlerOptions}
    (h : register_handler st eid f o = .ok st') :
    st'.rabbitmq_publishers = st.rabbitmq_publishers := by
  unfold register_handler at h
  split at h
  · exact absurd h (by simp)
  · simp only [Except.ok.injEq] at h
    subst h
    rfl

lemma exec_handler_entry (env : Nat → HBehavior) (st : RouterState)
    (h : HandlerEntry) : ((exec_handler env st h).2).entry = h := by
  unfold exec_handler
  rcases env h.fnId with _ | _ | d | ⟨eid, f, o⟩
  · rfl
  · rfl
  · rcases h.timeout with _ | t
    · rfl
    · by_cases ht : t ≤ d <;> simp [ht]
  · rcases hreg : register_handler st eid f o with e | st2 <;> simp [hreg]

lemma exec_handler_publishers (env : Nat → HBehavior) (st : RouterState)
    (h : HandlerEntry) :
    ((exec_handler env st h).1).rabbitmq_publishers = st.rabbitmq_publishers := by
  unfold exec_handler
  rcases env h.fnId with _ | _ | d | ⟨eid, f, o⟩
  · rfl
  · rfl
  · rcases h.timeout with _ | t
    · rfl
    · by_cases ht : t ≤ d <;> simp [ht]
  · rcases hreg : register_handler st eid f o with e | st2
    · simp [hreg]
    · simp only [hreg]
      exact register_handler_publishers hreg

lemma run_handlers_map_entry (env : Nat → HBehavior) (hs : List HandlerEntry)
    (st : RouterState) :
    ((run_handlers env hs st).2).map ExecRecord.entry = hs := by
  induction hs generalizing st with
  | nil => rfl
  | cons h rest ih => simp [run_handlers, ih, exec_handler_entry]

lemma run_handlers_publishers (env : Nat → HBehavior) (hs : List HandlerEntry)
    (st : RouterState) :
    ((run_handlers env hs st).1).rabbitmq_publishers = st.rabbitmq_publishers := by
  induction hs generalizing st with
  | nil => rfl
  | cons h rest ih =>
    simp only [run_handlers]
    rw [ih, exec_handler_publishers]

lemma exec_middleware_publishers (st : RouterState) (m : MBehavior) (p : Nat) :
    ((exec_middleware st m p).1).rabbitmq_publishers = st.rabbitmq_publishers := by
  unfold exec_middleware
  rcases m with f | _ | ⟨eid, f, o⟩
  · rfl
  · rfl
  · rcases hreg : register_handler st eid f o with e | st2
    · simp [hreg]
    · simp only [hreg]
      exact register_handler_publishers hreg

lemma run_middlewares_publishers (ms : List MBehavior) (st : RouterState)
    (p : Nat) :
    ((run_middlewares ms st p).1).rabbitmq_publishers = st.rabbitmq_publishers := by
  induction ms generalizing st p with
  | nil => rfl
  | cons m rest ih =>
    simp only [run_middlewares]
    rcases hx : exec_middleware st m p with ⟨st2, op⟩
    have hpub : st2.rabbitmq_publishers = st.rabbitmq_publishers := by
      have := exec_middleware_publishers st m p
      rwa [hx] at this
    cases op with
    | some p2 => rw [ih]; exact hpub
    | none => exact hpub

lemma run_middlewares_throw {ms : List MBehavior} {st : RouterState} {p : Nat}
    (h : MBehavior.throwErr ∈ ms) : (run_middlewares ms st p).2 = none := by
  induction ms generalizing st p with
  | nil => cases h
  | cons m rest ih =>
    rcases List.mem_cons.mp h with rfl | hmem
    · rfl
    · simp only [run_middlewares]
      rcases hx : exec_middleware st m p with ⟨st2, op⟩
      cases op with
      | some p2 => exact ih hmem
      | none => rfl

lemma filter_orderedInsert (x : HandlerEntry) (l : List HandlerEntry) (q : Int) :
    (l.orderedInsert priorityLE x).filter (fun h => h.priority == q) =
      if x.priority = q then x :: l.filter (fun h => h.priority == q)
      else l.filter (fun h => h.priority == q) := by
  induction l with
  | nil =>
    by_cases hx : x.priority = q
    · simp [List.orderedInsert, List.filter_cons, hx]
    · simp [List.orderedInsert, List.filter_cons, hx]
  | cons y ys ih =>
    by_cases hxy : priorityLE x y
    · rw [List.orderedInsert, if_pos hxy]
      by_cases hx : x.priority = q
      · simp [List.filter_cons, beq_iff_eq, hx]
      · simp [List.filter_cons, beq_iff_eq, hx]
    · rw [List.orderedInsert, if_neg hxy]
      have hyx : y.priority < x.priority := by
        unfold priorityLE at hxy; omega
      by_cases hx : x.priority = q
      · have hy : ¬ y.priority = q := by omega
        simp [List.filter_cons, beq_iff_eq, hy, hx, ih]
      · by_cases hyq : y.priority = q
        · simp [List.filter_cons, beq_iff_eq, hyq, hx, ih]
        · simp [List.filter_cons, beq_iff_eq, hyq, hx, ih]

lemma filter_sortByPriority (l : List HandlerEntry) (q : Int) :
    (sortByPriority l).filter (fun h => h.priority == q) =
      l.filter (fun h => h.priority == q) := by
  induction l with
  | nil => rfl
  | cons x xs ih =>
    rw [sortByPriority, List.insertionSort]
    rw [show List.insertionSort priorityLE xs = sortByPriority xs from rfl]
    rw [filter_orderedInsert]
    split_ifs with hx
    · rw [ih]
      simp [List.filter_cons, beq_iff_eq, hx]
    · rw [ih]
      simp [List.filter_cons, beq_iff_eq, hx]

lemma sorted_sortByPriority (l : List HandlerEntry) :
    (sortByPriority l).Pairwise priorityLE :=
  List.sorted_insertionSort priorityLE l

lemma dispatch_of_middleware_ok {env : Nat → HBehavior} {st : RouterState}
    {event_id : String} {payload : Nat} {st1 : RouterState} {p2 : Nat}
    (hskip : ((st.handlers event_id).isNone
                && (st.rabbitmq_publishers event_id).isNone) = false)
    (hrm : run_middlewares st.middlewares st payload = (st1, some p2)) :
    dispatch env st event_id payload =
      { state := (run_handlers env (sortByPriority ((st1.handlers event_id).getD [])) st1).1
        ran := (run_handlers env (sortByPriority ((st1.handlers event_id).getD [])) st1).2
        forwarded :=
          match (run_handlers env (sortByPriority ((st1.handlers event_id).getD []))
                  st1).1.rabbitmq_publishers event_id with
          | some pub => some (pub.queue_name, p2)
          | none => none
        middleware_failed := false
        skipped := false } := by
  unfold dispatch
  rw [hskip]
  simp only [Bool.false_eq_true, if_false, hrm]

lemma dispatch_ran_of_middleware_ok {env : Nat → HBehavior} {st : RouterState}
    {event_id : String} {payload : Nat} {st1 : RouterState} {p2 : Nat}
    (hskip : ((st.handlers event_id).isNone
                && (st.rabbitmq_publishers event_id).isNone) = false)
    (hrm : run_middlewares st.middlewares st payload = (st1, some p2)) :
    (dispatch env st event_id payload).ran.map ExecRecord.entry
      = sortByPriority ((st1.handlers event_id).getD []) := by
  rw [dispatch_of_middleware_ok hskip hrm]
  exact run_handlers_map_entry env _ st1

end EventRouter

namespace EventRouter

/-- Concrete router state for the C1 counterexample: the event `"E"` has a
RabbitMQ publisher (so the dispatch is not skipped), no handlers at all, and
one middleware that registers a handler (fn id 7) for `"E"`. -/
def stC1 : RouterState :=
  { handlers := fun _ => none
    rabbitmq_publishers := fun e =>
      if e = "E" then some { queue_name := "q1" } else none
    middlewares := [.registerH "E" 7 {}] }

/-- Behaviour environment for the C1 counterexample: every callback resolves. -/
def envC1 : Nat → HBehavior := fun _ => .succeed

/-- Claim C1 is false on the code: the handler snapshot is taken at line 102
of event_router.service.js, after the middlewares have run, so a handler that
a middleware registers while the dispatch is in flight does run within that
same dispatch.  Concretely: `"E"` has no registered handler when the dispatch
starts, a middleware registers fn 7, and fn 7 runs. -/
theorem claim_C1_counterexample :
    stC1.handlers "E" = none
    ∧ (dispatch envC1 stC1 "E" 0).ran.map (fun r => r.entry.fnId) = [7] := by
  constructor
  · rfl
  · decide

/-- Claim C1 (amended): the set of handlers that run in a dispatch is exactly
the set registered for the event_id at the start of the handler-execution
phase, i.e. immediately after the middleware chain has completed; a handler
registration added by an earlier handler while the loop is running never
causes that handler to run within the same dispatch (the loop iterates over
a sorted copy fixed before the first handler starts). -/
theorem claim_C1_theorem (env : Nat → HBehavior) (st : RouterState)
    (event_id : String) (payload : Nat) (st1 : RouterState) (p2 : Nat)
    (hskip : ((st.handlers event_id).isNone
                && (st.rabbitmq_publishers event_id).isNone) = false)
    (hrm : run_middlewares st.middlewares st payload = (st1, some p2)) :
    (dispatch env st event_id payload).ran.map ExecRecord.entry
      = sortByPriority ((st1.handlers event_id).getD []) :=
  dispatch_ran_of_middleware_ok hskip hrm

/-- Router state for the C1 witness: one handler, no middleware. -/
def stW1 : RouterState :=
  { handlers := fun e =>
      if e = "E" then
        some [{ fnId := 3, priority := 5, timeout := none, name := "h3" },
              { fnId := 9, priority := 2, timeout := none, name := "h9" }]
      else none
    rabbitmq_publishers := fun _ => none
    middlewares := [] }

/-- Witness for the amended claim C1 at a concrete state. -/
theorem claim_C1_witness :
    (dispatch (fun _ => HBehavior.succeed) stW1 "E" 0).ran.map ExecRecord.entry
      = sortByPriority ((stW1.handlers "E").getD []) :=
  claim_C1_theorem (fun _ => HBehavior.succeed) stW1 "E" 0 stW1 0 (by decide) rfl

/-- Router state for the C4 counterexample: the same callback (fn id 5)
registered twice for `"E"`. -/
def stC4 : RouterState :=
  { handlers := fun e =>
      if e = "E" then
        some [{ fnId := 5, priority := 10, timeout := none, name := "a" },
              { fnId := 5, priority := 10, timeout := none, name := "b" }]
      else none
    rabbitmq_publishers := fun _ => none
    middlewares := [] }

/-- Claim C4 is false on the code: `unregister_handler(event_id, handler_fn)`
filters out every registration whose callback equals `handler_fn`
(line 273, `filter(handler => handler.fn !== handler_fn)`), not exactly one.
With fn 5 registered twice, one call removes both. -/
theorem claim_C4_counterexample :
    (stC4.handlers "E").map List.length = some 2
    ∧ (unregister_handler stC4 "E" (some 5)).handlers "E" = some [] := by
  constructor
  · rfl
  · decide

/-- Claim C4 (amended): `unregister_handler(event_id, handler_fn)` removes
every registration for `event_id` whose callback is `handler_fn` (keeping the
rest in order), `unregister_handler(event_id)` with no handler removes all
registrations for `event_id`, and both leave every other event_id unchanged. -/
theorem claim_C4_theorem {M : Type} (st : RouterStateG M) (event_id : String)
    (f : Nat) :
    ((unregister_handler st event_id (some f)).handlers event_id
        = (st.handlers event_id).map (fun hs => hs.filter (fun h => h.fnId ≠ f)))
    ∧ ((unregister_handler st event_id none).handlers event_id = none)
    ∧ (∀ e, e ≠ event_id →
        (unregister_handler st event_id (some f)).handlers e = st.handlers e
        ∧ (unregister_handler st event_id none).handlers e = st.handlers e) := by
  rcases h : st.handlers event_id with _ | hs
  · refine ⟨by simp [unregister_handler, h], by simp [unregister_handler, h],
      fun e he => ⟨by simp [unregister_handler, h], by simp [unregister_handler, h]⟩⟩
  · refine ⟨by simp [unregister_handler, h], by simp [unregister_handler, h],
      fun e he => ⟨?_, ?_⟩⟩
    · simp [unregister_handler, h, he]
    · simp [unregister_handler, h, he]

/-- Router state for the C4 witness. -/
def stC4w : RouterState :=
  { handlers := fun e =>
      if e = "E" then
        some [{ fnId := 5, priority := 10, timeout := none, name := "a" },
              { fnId := 6, priority := 10, timeout := none, name := "c" },
              { fnId := 5, priority := 10, timeout := none, name := "b" }]
      else if e = "F" then
        some [{ fnId := 8, priority := 10, timeout := none, name := "d" }]
      else none
    rabbitmq_publishers := fun _ => none
    middlewares := [] }

/-- Witness for the amended claim C4 at a concrete state. -/
theorem claim_C4_witness :
    ((unregister_handler stC4w "E" (some 5)).handlers "E"
        = (stC4w.handlers "E").map (fun hs => hs.filter (fun h => h.fnId ≠ 5)))
    ∧ ((unregister_handler stC4w "E" none).handlers "E" = none)
    ∧ ((unregister_handler stC4w "E" (some 5)).handlers "F" = stC4w.handlers "F") :=
  ⟨(claim_C4_theorem stC4w "E" 5).1, (claim_C4_theorem stC4w "E" 5).2.1,
   ((claim_C4_theorem stC4w "E" 5).2.2 "F" (by decide)).1⟩

/-- Claim C5: within one dispatch the handlers execute sequentially (the
execution trace is a list, each entry settling before the next begins) in
ascending priority order, and the executed sequence is stable: for every
priority value, the subsequence of handlers with that priority appears in
registration order, exactly as in the snapshot. -/
theorem claim_C5_theorem (env : Nat → HBehavior) (st : RouterState)
    (event_id : String) (payload : Nat) (st1 : RouterState) (p2 : Nat)
    (hskip : ((st.handlers event_id).isNone
                && (st.rabbitmq_publishers event_id).isNone) = false)
    (hrm : run_middlewares st.middlewares st payload = (st1, some p2)) :
    ((dispatch env st event_id payload).ran.map ExecRecord.entry).Pairwise priorityLE
    ∧ ∀ q : Int,
        ((dispatch env st event_id payload).ran.map ExecRecord.entry).filter
            (fun h => h.priority == q)
          = ((st1.handlers event_id).getD []).filter (fun h => h.priority == q) := by
  rw [dispatch_ran_of_middleware_ok hskip hrm]
  exact ⟨sorted_sortByPriority _, fun q => filter_sortByPriority _ q⟩

/-- Router state for the C5 witness: three handlers on `"E"`, two sharing
priority 5 (registration order h1 then h2) and one at priority 1. -/
def stC5w : RouterState :=
  { handlers := fun e =>
      if e = "E" then
        some [{ fnId := 1, priority := 5, timeout := none, name := "h1" },
              { fnId := 2, priority := 5, timeout := none, name := "h2" },
              { fnId := 3, priority := 1, timeout := none, name := "h3" }]
      else none
    rabbitmq_publishers := fun _ => none
    middlewares := [] }

/-- Witness for claim C5 at a concrete state (instantiating the stability
part at the tied priority 5). -/
theorem claim_C5_witness :
    ((dispatch (fun _ => HBehavior.succeed) stC5w "E" 0).ran.map
        ExecRecord.entry).Pairwise priorityLE
    ∧ ((dispatch (fun _ => HBehavior.succeed) stC5w "E" 0).ran.map
          ExecRecord.entry).filter (fun h => h.priority == (5 : Int))
        = ((stC5w.handlers "E").getD []).filter (fun h => h.priority == (5 : Int)) :=
  ⟨(claim_C5_theorem (fun _ => HBehavior.succeed) stC5w "E" 0 stC5w 0
      (by decide) rfl).1,
   (claim_C5_theorem (fun _ => HBehavior.succeed) stC5w "E" 0 stC5w 0
      (by decide) rfl).2 5⟩

/-- Claim C6: a handler that throws or times out is caught individually and
prevents neither the remaining handlers of the sorted snapshot from running
nor the RabbitMQ side-channel forward from being attempted afterwards: even
when some executed handler settled in failure, the executed sequence is still
the whole sorted snapshot and the forward happens exactly when a publisher is
bound to the event_id. -/
theorem claim_C6_theorem (env : Nat → HBehavior) (st : RouterState)
    (event_id : String) (payload : Nat) (st1 : RouterState) (p2 : Nat)
    (hskip : ((st.handlers event_id).isNone
                && (st.rabbitmq_publishers event_id).isNone) = false)
    (hrm : run_middlewares st.middlewares st payload = (st1, some p2))
    (_hfail : ∃ r ∈ (dispatch env st event_id payload).ran, r.ok = false) :
    (dispatch env st event_id payload).ran.map ExecRecord.entry
        = sortByPriority ((st1.handlers event_id).getD [])
    ∧ (dispatch env st event_id payload).forwarded.isSome
        = (st.rabbitmq_publishers event_id).isSome := by
  refine ⟨dispatch_ran_of_middleware_ok hskip hrm, ?_⟩
  rw [dispatch_of_middleware_ok hskip hrm]
  have hpub : (run_handlers env (sortByPriority ((st1.handlers event_id).getD []))
      st1).1.rabbitmq_publishers event_id = st.rabbitmq_publishers event_id := by
    rw [run_handlers_publishers]
    have := run_middlewares_publishers st.middlewares st payload
    rw [hrm] at this
    exact congrFun this event_id
  simp only [hpub]
  rcases st.rabbitmq_publishers event_id with _ | pub <;> rfl

/-- Router state for the C6 witness: a throwing handler at priority 1, a
succeeding one at priority 5, and a bound publisher. -/
def stC6w : RouterState :=
  { handlers := fun e =>
      if e = "E" then
        some [{ fnId := 1, priority := 1, timeout := none, name := "boom" },
              { fnId := 2, priority := 5, timeout := none, name := "later" }]
      else none
    rabbitmq_publishers := fun e =>
      if e = "E" then some { queue_name := "q6" } else none
    middlewares := [] }

/-- Behaviours for the C6 witness: fn 1 throws, everything else resolves. -/
def envC6 : Nat → HBehavior := fun f => if f = 1 then .throwErr else .succeed

/-- Witness for claim C6: fn 1 throws, yet the whole snapshot runs and the
forward is attempted. -/
theorem claim_C6_witness :
    (dispatch envC6 stC6w "E" 0).ran.map ExecRecord.entry
        = sortByPriority ((stC6w.handlers "E").getD [])
    ∧ (dispatch envC6 stC6w "E" 0).forwarded.isSome
        = (stC6w.rabbitmq_publishers "E").isSome :=
  claim_C6_theorem envC6 stC6w "E" 0 stC6w 0 (by decide) rfl (by decide)

/-- Claim C7: when some middleware in the chain throws, no handler runs for
that emission and no side-channel forward happens; the failure is absorbed
into the dispatch result (`middleware_failed` — the top-level catch at lines
140-147) and the dispatch still returns a value, never re-raising to the
producer. -/
theorem claim_C7_theorem (env : Nat → HBehavior) (st : RouterState)
    (event_id : String) (payload : Nat)
    (hskip : ((st.handlers event_id).isNone
                && (st.rabbitmq_publishers event_id).isNone) = false)
    (hthrow : MBehavior.throwErr ∈ st.middlewares) :
    (dispatch env st event_id payload).ran = []
    ∧ (dispatch env st event_id payload).forwarded = none
    ∧ (dispatch env st event_id payload).middleware_failed = true := by
  have hnone := @run_middlewares_throw st.middlewares st payload hthrow
  unfold dispatch
  rw [hskip]
  rcases hrm : run_middlewares st.middlewares st payload with ⟨st1, op⟩
  rw [hrm] at hnone
  simp only at hnone
  subst hnone
  simp

/-- Router state for the C7 witness: a handler and a publisher are bound, a
transforming middleware runs first, then a throwing one. -/
def stC7w : RouterState :=
  { handlers := fun e =>
      if e = "E" then
        some [{ fnId := 1, priority := 1, timeout := none, name := "h" }]
      else none
    rabbitmq_publishers := fun e =>
      if e = "E" then some { queue_name := "q7" } else none
    middlewares := [.transform (fun p => p + 1), .throwErr] }

/-- Witness for claim C7 at a concrete state. -/
theorem claim_C7_witness :
    (dispatch (fun _ => HBehavior.succeed) stC7w "E" 0).ran = []
    ∧ (dispatch (fun _ => HBehavior.succeed) stC7w "E" 0).forwarded = none
    ∧ (dispatch (fun _ => HBehavior.succeed) stC7w "E" 0).middleware_failed = true :=
  claim_C7_theorem (fun _ => HBehavior.succeed) stC7w "E" 0 (by decide)
    (by simp [stC7w])

/-- Claim C10: `register_handler` stores `options.priority || 10`, so an
explicit priority of 0 — a falsy value in JS — is replaced by the default 10:
the registration is ordered as if it had default priority, not the highest. -/
theorem claim_C10_theorem {M : Type} (st : RouterStateG M) (event_id : String)
    (f : Nat) (t : Option Nat) (n : Option String) (h : event_id ≠ "") :
    ∃ st', register_handler st event_id f
        { priority := some 0, timeout := t, name := n } = .ok st'
      ∧ st'.handlers event_id
          = some ((st.handlers event_id).getD [] ++
              [{ fnId := f, priority := 10, timeout := js_or_timeout t,
                 name := js_or_name n (event_id ++ "_handler_"
                   ++ toString (((st.handlers event_id).getD []).length + 1)) }]) := by
  unfold register_handler
  rw [if_neg h]
  exact ⟨_, rfl, by simp [js_or_int]⟩

/-- Witness for claim C10: registering on an empty router with priority 0
stores priority 10. -/
theorem claim_C10_witness :
    ∃ st' : RouterState, register_handler
        { handlers := fun _ => none, rabbitmq_publishers := fun _ => none,
          middlewares := [] } "E" 4
        { priority := some 0, timeout := none, name := none } = .ok st'
      ∧ st'.handlers "E"
          = some [{ fnId := 4, priority := 10, timeout := js_or_timeout none,
                    name := js_or_name none ("E" ++ "_handler_" ++ toString 1) }] := by
  have := @claim_C10_theorem MBehavior
    { handlers := fun _ => none, rabbitmq_publishers := fun _ => none,
      middlewares := [] } "E" 4 none none (by decide)
  simpa using this

end EventRouter

namespace Munshi

open EventRouter

/-- Attempt classifiers used to count transport invocations. -/
def Attempt.isQueue : Attempt → Bool
  | .queue _ => true
  | _ => false

/-- True exactly on HTTP-fallback attempts. -/
def Attempt.isHttp : Attempt → Bool
  | .http _ _ => true
  | _ => false

/-- True exactly on the delayed queue-retry attempt. -/
def Attempt.isDelayed : Attempt → Bool
  | .delayedQueue _ => true
  | _ => false

lemma report_envelope (d : EventData) (o : Oracles) (now : Nat) :
    (report_to_munshi d o now).envelope = build_system_log_data d now := by
  unfold report_to_munshi report_to_munshi_body
  rcases hc : is_rabbitmq_error d || is_mq_error d
  · simp only [Bool.false_eq_true, if_false]
    rcases o.queueOk with _ | _ <;> rcases o.httpOk with _ | _ <;>
      simp [rabbitmq_send, send_log_to_munshi_api]
  · simp

lemma circular_of_classification {d : EventData}
    (h : d.error_type = "MQ_ERROR"
         ∨ ∃ c, d.error_code = some c ∧ c.startsWith "RABBITMQ-") :
    (is_rabbitmq_error d || is_mq_error d) = true := by
  rcases h with h | ⟨c, hc, hs⟩
  · simp [is_mq_error, h]
  · have hne : c ≠ "" := by
      intro he
      rw [he] at hs
      exact absurd hs (by decide)
    simp [is_rabbitmq_error, hc, hne, hs]

/-- Claim C2: a report classified as a failure of the queue transport itself
(`error_type` `MQ_ERROR`, or an `error_code` with the reserved `RABBITMQ-`
prefix) never touches the primary queue sender and makes exactly one HTTP
fallback attempt, with no further attempts whatever the HTTP result. -/
theorem claim_C2_theorem (d : EventData) (o : Oracles) (now : Nat)
    (h : d.error_type = "MQ_ERROR"
         ∨ ∃ c, d.error_code = some c ∧ c.startsWith "RABBITMQ-") :
    (report_to_munshi d o now).attempts = [.http "system" o.httpOk]
    ∧ (report_to_munshi d o now).attempts.countP Attempt.isQueue = 0
    ∧ (report_to_munshi d o now).attempts.countP Attempt.isHttp = 1 := by
  have hc := circular_of_classification h
  unfold report_to_munshi report_to_munshi_body
  simp [hc, send_log_to_munshi_api, List.countP, List.countP.go, Attempt.isQueue,
    Attempt.isHttp]

/-- Event data for the C2 witness: an `MQ_ERROR`-typed report. -/
def dC2 : EventData :=
  { error := { message := "mq down", stack := none }
    error_code := some "MQ-77", error_title := "queue outage"
    error_type := "MQ_ERROR" }

/-- Witness for claim C2: the HTTP result is a failure and still no retry
or queue attempt happens. -/
theorem claim_C2_witness :
    (report_to_munshi dC2 ⟨false, false, false⟩ 50).attempts
        = [.http "system" false]
    ∧ (report_to_munshi dC2 ⟨false, false, false⟩ 50).attempts.countP
        Attempt.isQueue = 0
    ∧ (report_to_munshi dC2 ⟨false, false, false⟩ 50).attempts.countP
        Attempt.isHttp = 1 :=
  claim_C2_theorem dC2 ⟨false, false, false⟩ 50 (Or.inl rfl)

lemma rabbitmq_send_toBool (b : Bool) : (rabbitmq_send b).toBool = b := by
  cases b <;> rfl

/-- Claim C3: for a non-circular report whose queue send and HTTP fallback
both fail, the pipeline makes exactly the three bounded attempts — queue,
HTTP fallback, then one delayed queue retry whose outcome is recorded and
never retried further; universally, no call ever makes more than 3 transport
attempts and the body never propagates an exception. -/
theorem claim_C3_theorem (d : EventData) (o : Oracles) (now : Nat)
    (hnc : (is_rabbitmq_error d || is_mq_error d) = false)
    (hq : o.queueOk = false) (hh : o.httpOk = false) :
    (report_to_munshi d o now).attempts
        = [.queue false, .http "system" false, .delayedQueue o.retryOk]
    ∧ (report_to_munshi d o now).attempts.countP Attempt.isDelayed = 1
    ∧ (∀ d2 o2 now2, (report_to_munshi d2 o2 now2).attempts.length ≤ 3
        ∧ (report_to_munshi_body d2 o2 now2).isOk = true) := by
  refine ⟨?_, ?_, ?_⟩
  · unfold report_to_munshi report_to_munshi_body
    rcases hr : o.retryOk <;>
      simp [hnc, hq, hh, hr, rabbitmq_send, send_log_to_munshi_api, Except.toBool]
  · unfold report_to_munshi report_to_munshi_body
    simp [hnc, hq, hh, rabbitmq_send, send_log_to_munshi_api, List.countP,
      List.countP.go, Attempt.isDelayed]
  · intro d2 o2 now2
    unfold report_to_munshi report_to_munshi_body
    rcases hc : is_rabbitmq_error d2 || is_mq_error d2 <;>
      rcases hq2 : o2.queueOk <;> rcases hh2 : o2.httpOk <;>
        simp [rabbitmq_send, send_log_to_munshi_api, hq2, hh2, Except.isOk,
          Except.toBool]

/-- Event data for the C3 witness: an ordinary database error. -/
def dC3 : EventData :=
  { error := { message := "db down", stack := none }
    error_code := some "DB-1", error_title := "db outage"
    error_type := "DB_ERROR" }

/-- Witness for claim C3: queue and HTTP fail, the delayed retry succeeds. -/
theorem claim_C3_witness :
    (report_to_munshi dC3 ⟨false, false, true⟩ 60).attempts
        = [.queue false, .http "system" false, .delayedQueue true]
    ∧ (report_to_munshi dC3 ⟨false, false, true⟩ 60).attempts.countP
        Attempt.isDelayed = 1
    ∧ ((report_to_munshi dC3 ⟨false, false, false⟩ 61).attempts.length ≤ 3
        ∧ (report_to_munshi_body dC3 ⟨false, false, false⟩ 61).isOk = true) :=
  ⟨(claim_C3_theorem dC3 ⟨false, false, true⟩ 60 (by decide) rfl rfl).1,
   (claim_C3_theorem dC3 ⟨false, false, true⟩ 60 (by decide) rfl rfl).2.1,
   (claim_C3_theorem dC3 ⟨false, false, true⟩ 60 (by decide) rfl rfl).2.2
     dC3 ⟨false, false, false⟩ 61⟩

/-- The stack-trace text of the C8 example: its second line is the named
frame `"    at do_thing (/app/foo.js:42:7)"`. -/
def exC8 : String := "Error: boom\n    at do_thing (/app/foo.js:42:7)"

/-- Claim C8: `extract_stack_trace` parses the second line of the trace; on
the example named frame it yields file `foo.js`, function `do_thing`, line
42, column 7; when neither the named-frame nor the anonymous-frame pattern
matches that line — or the trace text is absent — it returns the placeholder
`{unknown.js, anonymous, 0, 0}` and in every case returns a value rather
than throwing. -/
theorem claim_C8_theorem :
    extract_stack_trace (some exC8)
        = { file_path := "/app/foo.js", file_name := "foo.js",
            function_name := "do_thing", line_no := 42, column_no := 7 }
    ∧ (∀ s : String,
        searchPat match1At (((splitOnChar '\n' s.toList).get? 1).getD []) = none →
        searchPat match2At (((splitOnChar '\n' s.toList).get? 1).getD []) = none →
        extract_stack_trace (some s) = placeholder_trace)
    ∧ extract_stack_trace none = placeholder_trace := by
  refine ⟨by decide, ?_, rfl⟩
  intro s h1 h2
  unfold extract_stack_trace
  simp only [h1, h2]

/-- Witness for claim C8: a trace whose second line matches neither pattern
degrades to the placeholder. -/
theorem claim_C8_witness :
    searchPat match1At
        (((splitOnChar '\n' ("Error: x\nno frame here").toList).get? 1).getD [])
      = none
    ∧ extract_stack_trace (some "Error: x\nno frame here") = placeholder_trace :=
  ⟨by decide,
   claim_C8_theorem.2.1 "Error: x\nno frame here" (by decide) (by decide)⟩

/-- Event data for the C9 counterexample: a caller-supplied `ttl` of 0. -/
def dC9 : EventData :=
  { error := { message := "m", stack := none }
    error_code := some "X-1", error_title := "t", error_type := "DB_ERROR"
    ttl := some 0 }

/-- Claim C9 is false on the code: the TTL default is applied with
`event_data.ttl || munshi_ttl` (line 223), so a caller-supplied `ttl` of 0 —
falsy in JS — is replaced by the default 2592000 instead of appearing
verbatim in the envelope. -/
theorem claim_C9_counterexample :
    dC9.ttl = some 0
    ∧ (report_to_munshi dC9 ⟨true, true, true⟩ 70).envelope.ttl = 2592000 := by
  constructor
  · rfl
  · decide

/-- Claim C9 (amended): in every envelope built by `report_to_munshi` or
`publish_general_log`, the TTL is the configured default 2592000 when the
caller omits `ttl` and the caller's value verbatim when it is nonzero (a
supplied 0 is falsy and also yields the default); consequently `ttl > 0`
whenever the supplied value is nonnegative or absent. -/
theorem claim_C9_theorem (d : EventData) (dg : GeneralEventData) (o : Oracles)
    (now : Nat) :
    ((d.ttl = none → (report_to_munshi d o now).envelope.ttl = 2592000)
      ∧ (d.ttl = some 0 → (report_to_munshi d o now).envelope.ttl = 2592000)
      ∧ (∀ t, d.ttl = some t → t ≠ 0 →
          (report_to_munshi d o now).envelope.ttl = t)
      ∧ (∀ t, d.ttl = some t → 0 ≤ t →
          0 < (report_to_munshi d o now).envelope.ttl)
      ∧ (d.ttl = none → 0 < (report_to_munshi d o now).envelope.ttl))
    ∧ ((dg.ttl = none → (publish_general_log dg o now).envelope.ttl = 2592000)
      ∧ (dg.ttl = some 0 → (publish_general_log dg o now).envelope.ttl = 2592000)
      ∧ (∀ t, dg.ttl = some t → t ≠ 0 →
          (publish_general_log dg o now).envelope.ttl = t)
      ∧ (∀ t, dg.ttl = some t → 0 ≤ t →
          0 < (publish_general_log dg o now).envelope.ttl)
      ∧ (dg.ttl = none → 0 < (publish_general_log dg o now).envelope.ttl)) := by
  have hsys : (report_to_munshi d o now).envelope.ttl = js_or_int d.ttl munshi_ttl := by
    rw [report_envelope]; rfl
  have hgen : (publish_general_log dg o now).envelope.ttl
      = js_or_int dg.ttl munshi_ttl := by
    unfold publish_general_log
    rcases o.queueOk with _ | _ <;> rcases o.httpOk with _ | _ <;>
      simp [rabbitmq_send, send_log_to_munshi_api, build_general_log_data]
  rw [hsys, hgen]
  refine ⟨⟨?_, ?_, ?_, ?_, ?_⟩, ?_, ?_, ?_, ?_, ?_⟩
  · intro h; simp [js_or_int, h, munshi_ttl]
  · intro h; simp [js_or_int, h, munshi_ttl]
  · intro t ht hne; simp [js_or_int, ht, hne]
  · intro t ht hpos
    simp only [js_or_int, ht]
    by_cases h0 : t = 0
    · simp [h0, munshi_ttl]
    · simp only [h0, if_false]; omega
  · intro h; simp [js_or_int, h, munshi_ttl]
  · intro h; simp [js_or_int, h, munshi_ttl]
  · intro h; simp [js_or_int, h, munshi_ttl]
  · intro t ht hne; simp [js_or_int, ht, hne]
  · intro t ht hpos
    simp only [js_or_int, ht]
    by_cases h0 : t = 0
    · simp [h0, munshi_ttl]
    · simp only [h0, if_false]; omega
  · intro h; simp [js_or_int, h, munshi_ttl]

/-- Event data pairs for the C9 witness: omitted TTL and TTL 3600. -/
def dC9none : EventData :=
  { error := { message := "m", stack := none }, error_title := "t",
    error_type := "DB_ERROR" }

/-- General-log event data with TTL 3600 for the C9 witness. -/
def dgC9 : GeneralEventData :=
  { log_type := "USER_LOGIN", plain_text := "ok", ttl := some 3600 }

/-- General-log event data with the falsy TTL 0 for the C9 witness. -/
def dgC9zero : GeneralEventData :=
  { log_type := "USER_LOGIN", plain_text := "ok", ttl := some 0 }

/-- Witness for the amended claim C9: an omitted TTL and a supplied TTL of 0
both become the default 2592000 (in the system and the general envelope), and
a supplied 3600 appears verbatim and positive in the general envelope. -/
theorem claim_C9_witness :
    (report_to_munshi dC9none ⟨true, true, true⟩ 80).envelope.ttl = 2592000
    ∧ (report_to_munshi dC9 ⟨true, true, true⟩ 80).envelope.ttl = 2592000
    ∧ (publish_general_log dgC9zero ⟨true, true, true⟩ 80).envelope.ttl = 2592000
    ∧ (publish_general_log dgC9 ⟨true, true, true⟩ 80).envelope.ttl = 3600
    ∧ 0 < (publish_general_log dgC9 ⟨true, true, true⟩ 80).envelope.ttl :=
  ⟨(claim_C9_theorem dC9none dgC9 ⟨true, true, true⟩ 80).1.1 rfl,
   (claim_C9_theorem dC9 dgC9 ⟨true, true, true⟩ 80).1.2.1 rfl,
   (claim_C9_theorem dC9none dgC9zero ⟨true, true, true⟩ 80).2.2.1 rfl,
   (claim_C9_theorem dC9none dgC9 ⟨true, true, true⟩ 80).2.2.2.1 3600 rfl (by decide),
   (claim_C9_theorem dC9none dgC9 ⟨true, true, true⟩ 80).2.2.2.2.1 3600 rfl
     (by decide)⟩

end Munshi
